import Mathlib

/-!
Verification of the repository / unit-of-work data-access layer of the
`clean-architecture-fastapi` codebase.

The embedding models a table bound to a repository as a `List` of rows of an
abstract row type `α`.  A SQLAlchemy where-clause is modelled as a boolean
predicate on rows; `where(*clauses)` joins the supplied clauses with AND
semantics.  The asynchronous session boundary is modelled by explicit state
passing: operations take the table state and return the new table state
together with their result, and fallible execution paths return
`Except DBErr`.
-/

namespace CleanArch

/-- Error kinds that can surface at the storage boundary, each corresponding
to a distinct Python exception class: `TypeError` raised by the default
`exists`/`count` of `AbstractRepository` (carrying its message),
`IntegrityError` for constraint violations, connection/transport failure,
and serialization/commit conflict. -/
inductive DBErr where
  | typeError (msg : String)
  | integrityError
  | connectionFailure
  | transactionConflict
  deriving DecidableEq, Repr

/-- Models `where(*clauses)`: a row satisfies the variadic clause list when it
satisfies every clause (AND semantics, and vacuously true when no clause is
given). -/
def matchesAll {α : Type} (clauses : List (α → Bool)) (r : α) : Bool :=
  clauses.all (fun c => c r)

namespace SQLAlchemyRepository

/-- Embeds `add(**values)`: it builds `insert(self.model).values(**values)
.on_conflict_do_nothing()` and executes it.  `conflict old new` models the
insert arbiter: whether the candidate row `vals` conflicts with an already
stored row under a unique/exclusion constraint, in which case the statement
is skipped (`DO NOTHING`).  A session whose connection is down fails the
execution itself; `add` installs no handler, so that error propagates.  The
method returns `None` (unit) next to the new table state. -/
def add {α : Type} (conflict : α → α → Bool) (vals : α)
    (healthy : Bool) (st : List α) : Except DBErr (List α × Unit) :=
  if healthy = false then .error .connectionFailure
  else if st.any (fun r => conflict r vals) then .ok (st, ())
  else .ok (st ++ [vals], ())

/-- Embeds `get_all(*clauses)`: `select(query_model).where(*clauses)`, then
`.scalars().all()` — every row of the bound table satisfying the AND of the
clauses, in table order. -/
def get_all {α : Type} (clauses : List (α → Bool)) (st : List α) : List α :=
  st.filter (matchesAll clauses)

/-- Embeds `get_one(*clauses)`: the same select as `get_all` but finished with
`.scalars().first()`, which yields the first result row or `None` when the
result is empty; the absence case is a value, not an exception. -/
def get_one {α : Type} (clauses : List (α → Bool)) (st : List α) : Option α :=
  (st.filter (matchesAll clauses)).head?

/-- Embeds `update(*clauses, **values)`: `update(self.model).where(*clauses)
.values(**values)`; `setVals` models the fixed `**values` assignment applied
to a row.  Every matching row is overwritten, non-matching rows are left as
they are, and the method body ends in `return None`. -/
def update {α : Type} (clauses : List (α → Bool)) (setVals : α → α)
    (st : List α) : List α × Unit :=
  (st.map (fun r => if matchesAll clauses r then setVals r else r), ())

/-- Embeds `delete(*clauses)`: `delete(self.model).where(*clauses)
.returning(ASTERISK)`; the statement removes every matching row and the
RETURNING clause hands back the removed rows.  The pair is
(returned rows, table state after execution). -/
def delete {α : Type} (clauses : List (α → Bool)) (st : List α) :
    List α × List α :=
  (st.filter (matchesAll clauses),
   st.filter (fun r => !(matchesAll clauses r)))

/-- Embeds `count(*clauses)`: it builds `lambda_stmt(lambda: select(func.count(ASTERISK)))`
and only when `clauses` is non-empty appends `.where(*clauses)`.  The FROM
clause of the rendered SELECT is inferred from the expressions present: with
at least one clause over the model's columns the statement is
`SELECT count('*') FROM model WHERE ...`, counting the matching rows; with no
clause nothing references the table, the statement is the FROM-less
`SELECT count('*')`, and it evaluates over the single anonymous row, i.e. to 1
regardless of the table state. -/
def count {α : Type} (clauses : List (α → Bool)) (st : List α) : Nat :=
  if clauses.isEmpty then 1
  else (st.filter (matchesAll clauses)).length

end SQLAlchemyRepository

namespace AbstractRepository

/-- Default `exists` of `AbstractRepository` (named `exists_` because `exists`
is a Lean keyword): regardless of the clauses it raises
`TypeError("Repository %s does not provide way to determine is object exists
or not" % cls_name)` and therefore never produces a boolean. -/
def exists_ {α : Type} (clsName : String) (_clauses : List (α → Bool)) :
    Except DBErr Bool :=
  .error (.typeError
    ("Repository " ++ clsName ++
      " does not provide way to determine is object exists or not"))

/-- Default `count` of `AbstractRepository`: regardless of the clauses it
raises `TypeError("Repository %s does not provide way to determine count of
objects" % cls_name)` and therefore never produces an integer. -/
def count {α : Type} (clsName : String) (_clauses : List (α → Bool)) :
    Except DBErr Nat :=
  .error (.typeError
    ("Repository " ++ clsName ++
      " does not provide way to determine count of objects"))

end AbstractRepository

/-- The `session_or_pool` constructor argument of `SQLAlchemyRepository`:
either a `sessionmaker` factory or an already live `AsyncSession`, the latter
identified by a numeric id. -/
inductive SessionOrPool where
  | pool
  | session (id : Nat)
  deriving DecidableEq, Repr

/-- The state a repository keeps after `__init__`: the single session bound
to `self._session`. -/
structure Repo where
  sessionId : Nat
  deriving DecidableEq, Repr

/-- Embeds `SQLAlchemyRepository.__init__`: a `sessionmaker` argument is called —
once — to obtain `self._session`; a live session argument is stored as
`self._session` unchanged.  Fresh sessions produced by the factory are
numbered by the counter `fresh`, which advances by one per factory call, so
`fresh` after minus `fresh` before counts the factory invocations. -/
def SQLAlchemyRepository.init (sp : SessionOrPool) (fresh : Nat) :
    Repo × Nat :=
  match sp with
  | .pool => (⟨fresh⟩, fresh + 1)
  | .session i => (⟨i⟩, fresh)

/-- One call recorded against the raw synchronous session:
`session.bulk_save_objects(instances, return_defaults=..., update_changed_only=...,
preserve_order=...)` with its exact arguments. -/
structure BulkCall (α : Type) where
  instances : List α
  return_defaults : Bool
  update_changed_only : Bool
  preserve_order : Bool
  deriving DecidableEq, Repr

/-- The raw synchronous `Session` handed to a bulk proxy, modelled by the log
of batch writes issued on it. -/
structure SyncSession (α : Type) where
  log : List (BulkCall α)
  deriving DecidableEq, Repr

/-- Embeds `make_proxy_bulk_save_func(instances, return_defaults, update_changed_only,
preserve_order)`: returns the closure `_proxy`, which, only when later invoked
with a session, issues the single `bulk_save_objects` call carrying exactly
the captured instances and flags.  Construction itself takes no session and
touches none. -/
def make_proxy_bulk_save_func {α : Type} (instances : List α)
    (return_defaults : Bool) (update_changed_only : Bool)
    (preserve_order : Bool) : SyncSession α → SyncSession α :=
  fun session =>
    ⟨session.log ++
      [⟨instances, return_defaults, update_changed_only, preserve_order⟩]⟩

/-- Embeds `make_proxy_bulk_save_func` invoked with only `instances`, taking the
declared Python defaults `return_defaults=False, update_changed_only=True,
preserve_order=True`. -/
def make_proxy_bulk_save_func_defaults {α : Type} (instances : List α) :
    SyncSession α → SyncSession α :=
  make_proxy_bulk_save_func instances false true true

/-- Runs a sequence of repository operations on the working state, stopping
at the first one that fails. -/
def runOps {σ : Type} (ops : List (σ → Except DBErr σ)) (s : σ) :
    Except DBErr σ :=
  match ops with
  | [] => .ok s
  | op :: rest =>
    match op s with
    | .error e => .error e
    | .ok s' => runOps rest s'

/-- Modelled from the spec: the unit-of-work implementation
(`AbstractUnitOfWork` and its `pipeline` attribute, imported by the delete-order
handler from `infrastructure.interfaces.database.data_access.unit_of_work`) is
not among the provided sources.  Per the spec, "`pipeline` is a
scoped-acquisition construct — on normal exit, the scope commits; on any error
exit, the scope rolls back and propagates the error."  The result is the
persisted state after the scope together with the propagated error, if any:
commit persists the final working state, rollback reinstates the state from
before the scope. -/
def pipeline {σ : Type} (ops : List (σ → Except DBErr σ)) (committed : σ) :
    σ × Option DBErr :=
  match runOps ops committed with
  | .ok s' => (s', none)
  | .error e => (committed, some e)

/-- A row of the `orders` table: generated integer identity, server-defaulted
creation timestamp, order date, and the `user_id` foreign key. -/
structure OrderRow where
  id : Nat
  created_at : Nat
  order_date : Nat
  user_id : Nat
  deriving DecidableEq, Repr

/-- A row of the `order_items` table: generated integer identity, the
`order_id` foreign key (NOT NULL and UNIQUE), the `product_id` foreign key,
and the quantity. -/
structure OrderItemRow where
  id : Nat
  order_id : Nat
  product_id : Nat
  quantity : Nat
  deriving DecidableEq, Repr

/-- The database slice touched by the delete-order handler: the `orders` and
`order_items` tables. -/
structure OrderDB where
  orders : List OrderRow
  order_items : List OrderItemRow
  deriving DecidableEq, Repr

/-- The working state threaded through a unit-of-work scope in the handler
model: the database slice plus the number of further statements the session's
connection can still execute before failing (modelling a connection that dies
partway through the scope; a statement issued after the budget is exhausted
fails with a connection error). -/
structure HandlerState where
  db : OrderDB
  budget : Nat
  deriving DecidableEq, Repr

/-- The first statement of `CreateOrderHandler.handle` (delete-order handler):
`self._repository.with_changed_query_model(OrderModel).delete(OrderModel.id ==
event.order_id)` — a repository rebound to `OrderModel` deletes the matching
order rows on the shared session. -/
def deleteOrderOp (order_id : Nat) (s : HandlerState) :
    Except DBErr HandlerState :=
  match s.budget with
  | 0 => .error .connectionFailure
  | b + 1 =>
    .ok ⟨{ s.db with
            orders := (SQLAlchemyRepository.delete
              [fun o => o.id == order_id] s.db.orders).2 }, b⟩

/-- The second statement of `CreateOrderHandler.handle`:
`self._repository.with_changed_query_model(OrderItemModel).delete(
OrderItemModel.order_id == event.order_id)`. -/
def deleteOrderItemOp (order_id : Nat) (s : HandlerState) :
    Except DBErr HandlerState :=
  match s.budget with
  | 0 => .error .connectionFailure
  | b + 1 =>
    .ok ⟨{ s.db with
            order_items := (SQLAlchemyRepository.delete
              [fun i => i.order_id == order_id] s.db.order_items).2 }, b⟩

/-- The body of `CreateOrderHandler.handle`: the two deletes issued inside
the single `async with self._uow.pipeline` scope, in program order. -/
def deleteOrderHandlerOps (order_id : Nat) :
    List (HandlerState → Except DBErr HandlerState) :=
  [deleteOrderOp order_id, deleteOrderItemOp order_id]

/-- Column `order_items.order_id` is declared `unique=True`, so it is the arbiter
the `ON CONFLICT DO NOTHING` of `add` fires on: inserting values whose
`order_id` equals that of a stored row is skipped; otherwise the row is
inserted with the next generated identity (`Identity(always=True)` — the id
is never caller-supplied).  The pair is (table after, next identity after). -/
def orderItems_add (order_id product_id quantity : Nat)
    (st : List OrderItemRow) (nextId : Nat) : List OrderItemRow × Nat :=
  if st.any (fun r => r.order_id == order_id) then (st, nextId)
  else (st ++ [⟨nextId, order_id, product_id, quantity⟩], nextId + 1)

/-- Embeds `update` on `order_items` as executed by the database: the UPDATE
statement rewrites the matching rows, but the unique constraint on `order_id`
is checked by the engine; when the rewritten table would violate it the
statement fails and changes nothing. -/
def orderItems_update (clauses : List (OrderItemRow → Bool))
    (setVals : OrderItemRow → OrderItemRow) (st : List OrderItemRow) :
    List OrderItemRow :=
  if ((SQLAlchemyRepository.update clauses setVals st).1.map
      (fun r => r.order_id)).Nodup
  then (SQLAlchemyRepository.update clauses setVals st).1
  else st

/-- The `order_items` table states reachable through the repository layer:
from the empty table, by `add` (with its conflict-is-ignored policy and
generated identities), by `delete`, and by constraint-checked `update`. -/
inductive ReachableItems : List OrderItemRow → Prop where
  | empty : ReachableItems []
  | add (order_id product_id quantity nextId : Nat) {st : List OrderItemRow} :
      ReachableItems st →
      ReachableItems (orderItems_add order_id product_id quantity st nextId).1
  | del (clauses : List (OrderItemRow → Bool)) {st : List OrderItemRow} :
      ReachableItems st →
      ReachableItems (SQLAlchemyRepository.delete clauses st).2
  | upd (clauses : List (OrderItemRow → Bool))
      (setVals : OrderItemRow → OrderItemRow) {st : List OrderItemRow} :
      ReachableItems st →
      ReachableItems (orderItems_update clauses setVals st)

/-- Scratch row type standing for a mapped model in generic examples. -/
abbrev Row := Nat

end CleanArch

namespace CleanArch

/-- C1: the claim that `count()` with no clauses equals the length of
`get_all()` with no clauses fails on the code: the clause-less count statement
has no FROM clause and always evaluates to 1, exhibited here on an empty
orders table (count 1, get_all length 0) and on a two-row table (count 1,
get_all length 2). -/
theorem count_no_clauses_ignores_table_state :
    SQLAlchemyRepository.count ([] : List (OrderRow → Bool)) [] = 1 ∧
    (SQLAlchemyRepository.get_all ([] : List (OrderRow → Bool)) []).length
      = 0 ∧
    SQLAlchemyRepository.count ([] : List (OrderRow → Bool))
      [⟨1, 0, 10, 1⟩, ⟨2, 0, 20, 1⟩] = 1 ∧
    (SQLAlchemyRepository.get_all ([] : List (OrderRow → Bool))
      [⟨1, 0, 10, 1⟩, ⟨2, 0, 20, 1⟩]).length = 2 :=
  ⟨rfl, rfl, rfl, rfl⟩

/-- C3: `delete(clauses)` returns exactly the rows matching the conjunction
of the clauses immediately before deletion (the same rows `get_all(clauses)`
would have returned), and `get_all(clauses)` on the post-deletion state is
empty. -/
theorem delete_returns_matching_then_get_all_empty {α : Type}
    (clauses : List (α → Bool)) (st : List α) :
    (SQLAlchemyRepository.delete clauses st).1 =
      SQLAlchemyRepository.get_all clauses st ∧
    (∀ r, r ∈ (SQLAlchemyRepository.delete clauses st).1 ↔
      (r ∈ st ∧ matchesAll clauses r = true)) ∧
    SQLAlchemyRepository.get_all clauses
      (SQLAlchemyRepository.delete clauses st).2 = [] := by
  refine ⟨rfl, ?_, ?_⟩
  · intro r
    simp [SQLAlchemyRepository.delete, List.mem_filter]
  · simp only [SQLAlchemyRepository.get_all, SQLAlchemyRepository.delete,
      List.filter_filter]
    apply List.filter_eq_nil_iff.mpr
    intro a _
    simp

/-- Witness for C3 at a concrete table and clause. -/
theorem delete_returns_matching_witness :
    (3 : Row) ∈ (SQLAlchemyRepository.delete [fun n => n == 3]
        ([1, 3, 2] : List Row)).1 ∧
    SQLAlchemyRepository.get_all [fun n => n == 3]
      (SQLAlchemyRepository.delete [fun n => n == 3]
        ([1, 3, 2] : List Row)).2 = [] :=
  ⟨((delete_returns_matching_then_get_all_empty [fun n => n == 3]
      [1, 3, 2]).2.1 3).mpr (by decide),
   (delete_returns_matching_then_get_all_empty [fun n => n == 3]
      [1, 3, 2]).2.2⟩

/-- C4: `add(values)` with a live connection inserts the one new record when
no stored row conflicts with it, silently leaves the table unchanged (and
still succeeds) when one does, returns unit in both cases, and propagates a
storage error such as a dead connection untouched. -/
theorem add_conflict_noop_else_propagate {α : Type} (conflict : α → α → Bool)
    (vals : α) (st : List α) :
    SQLAlchemyRepository.add conflict vals false st =
      .error .connectionFailure ∧
    (st.any (fun r => conflict r vals) = true →
      SQLAlchemyRepository.add conflict vals true st = .ok (st, ())) ∧
    (st.any (fun r => conflict r vals) = false →
      SQLAlchemyRepository.add conflict vals true st =
        .ok (st ++ [vals], ())) := by
  refine ⟨rfl, ?_, ?_⟩ <;> intro h <;>
    simp [SQLAlchemyRepository.add, h]

/-- Witness for C4: a conflicting insert no-ops, a fresh insert appends. -/
theorem add_conflict_noop_witness :
    SQLAlchemyRepository.add (fun r v => r == v) (3 : Row) true [1, 3] =
      .ok ([1, 3], ()) ∧
    SQLAlchemyRepository.add (fun r v => r == v) (4 : Row) true [1, 3] =
      .ok ([1, 3, 4], ()) :=
  ⟨(add_conflict_noop_else_propagate (fun r v => r == v) 3 [1, 3]).2.1
      (by decide),
   (add_conflict_noop_else_propagate (fun r v => r == v) 4 [1, 3]).2.2
      (by decide)⟩

/-- C5: `get_one(clauses)` yields the head of what `get_all(clauses)` would
return; when no row matches it is the absence value `none` (not an error),
and when some row matches it is `some` of a matching stored row — the first
one of the result. -/
theorem get_one_first_or_absence {α : Type} (clauses : List (α → Bool))
    (st : List α) :
    SQLAlchemyRepository.get_one clauses st =
      (SQLAlchemyRepository.get_all clauses st).head? ∧
    ((∀ r ∈ st, matchesAll clauses r = false) →
      SQLAlchemyRepository.get_one clauses st = none) ∧
    (∀ r ∈ st, matchesAll clauses r = true →
      ∃ x, SQLAlchemyRepository.get_one clauses st = some x ∧
        x ∈ st ∧ matchesAll clauses x = true) := by
  refine ⟨rfl, ?_, ?_⟩
  · intro h
    have hnil : st.filter (matchesAll clauses) = [] :=
      List.filter_eq_nil_iff.mpr (by
        intro a ha
        simp [h a ha])
    simp [SQLAlchemyRepository.get_one, hnil]
  · intro r hr hmatch
    have hmem : r ∈ st.filter (matchesAll clauses) :=
      List.mem_filter.mpr ⟨hr, hmatch⟩
    have hne : st.filter (matchesAll clauses) ≠ [] :=
      List.ne_nil_of_mem hmem
    refine ⟨(st.filter (matchesAll clauses)).head hne, ?_, ?_⟩
    · simp [SQLAlchemyRepository.get_one, List.head?_eq_head hne]
    · have hx : (st.filter (matchesAll clauses)).head hne ∈
          st.filter (matchesAll clauses) := List.head_mem hne
      exact ⟨(List.mem_filter.mp hx).1, (List.mem_filter.mp hx).2⟩

/-- Witness for C5: no match gives `none`, a match gives `some` first
matching row. -/
theorem get_one_first_or_absence_witness :
    SQLAlchemyRepository.get_one [fun n => n == 9]
      ([1, 3] : List Row) = none ∧
    (∃ x, SQLAlchemyRepository.get_one [fun n => n == 3]
        ([1, 3] : List Row) = some x ∧
      x ∈ ([1, 3] : List Row) ∧ matchesAll [fun n => n == 3] x = true) :=
  ⟨(get_one_first_or_absence [fun n => n == 9] [1, 3]).2.1 (by decide),
   (get_one_first_or_absence [fun n => n == 3] [1, 3]).2.2 3
     (by decide) (by decide)⟩

/-- C6: `update(clauses, values)` keeps the table length, overwrites exactly
the rows matching the conjunction of the clauses with the supplied values,
leaves every other row untouched, returns nothing, and on zero matching rows
leaves the table state exactly as it was (idempotent no-op, no error). -/
theorem update_matching_rows_noop_on_zero {α : Type}
    (clauses : List (α → Bool)) (setVals : α → α) (st : List α) :
    (SQLAlchemyRepository.update clauses setVals st).2 = () ∧
    (SQLAlchemyRepository.update clauses setVals st).1.length = st.length ∧
    (∀ i : Nat, (SQLAlchemyRepository.update clauses setVals st).1[i]? =
      (st[i]?).map
        (fun r => if matchesAll clauses r then setVals r else r)) ∧
    ((∀ r ∈ st, matchesAll clauses r = false) →
      (SQLAlchemyRepository.update clauses setVals st).1 = st) := by
  refine ⟨rfl, by simp [SQLAlchemyRepository.update], ?_, ?_⟩
  · intro i
    simp [SQLAlchemyRepository.update]
  · intro h
    simp only [SQLAlchemyRepository.update]
    have hcong : ∀ r ∈ st,
        (if matchesAll clauses r then setVals r else r) = id r := by
      intro r hr
      simp [h r hr]
    rw [List.map_congr_left hcong, List.map_id]

/-- Witness for C6: an update whose clause matches no row of a concrete
table returns it unchanged. -/
theorem update_matching_rows_witness :
    (SQLAlchemyRepository.update [fun n => n == 9] (fun _ => 7)
      ([1, 3] : List Row)).1 = [1, 3] :=
  (update_matching_rows_noop_on_zero [fun n => n == 9] (fun _ => 7)
    [1, 3]).2.2.2 (by decide)

/-- C7: the default `exists` and `count` of `AbstractRepository`, for every
class name and every clause list, fail with the dedicated `TypeError` kind
and its operation-specific message, never return a value, and the `TypeError`
kind is distinct from every other storage error kind (and, being an error,
distinct from any "no result" value). -/
theorem default_exists_count_unsupported {α : Type} (clsName : String)
    (clauses : List (α → Bool)) :
    AbstractRepository.exists_ clsName clauses =
      .error (.typeError ("Repository " ++ clsName ++
        " does not provide way to determine is object exists or not")) ∧
    AbstractRepository.count clsName clauses =
      .error (.typeError ("Repository " ++ clsName ++
        " does not provide way to determine count of objects")) ∧
    (∀ b : Bool, AbstractRepository.exists_ clsName clauses ≠ .ok b) ∧
    (∀ n : Nat, AbstractRepository.count clsName clauses ≠ .ok n) ∧
    (∀ msg : String, DBErr.typeError msg ≠ DBErr.integrityError ∧
      DBErr.typeError msg ≠ DBErr.connectionFailure ∧
      DBErr.typeError msg ≠ DBErr.transactionConflict) := by
  refine ⟨rfl, rfl, ?_, ?_, ?_⟩
  · intro b h
    exact Except.noConfusion h
  · intro n h
    exact Except.noConfusion h
  · intro msg
    exact ⟨fun h => DBErr.noConfusion h, fun h => DBErr.noConfusion h,
      fun h => DBErr.noConfusion h⟩

/-- Witness for C7 at a concrete repository class name and clause list. -/
theorem default_exists_count_witness :
    AbstractRepository.exists_ "OrderRepository" ([] : List (Row → Bool)) =
      .error (.typeError ("Repository OrderRepository" ++
        " does not provide way to determine is object exists or not")) ∧
    AbstractRepository.exists_ "OrderRepository"
      ([] : List (Row → Bool)) ≠ .ok true :=
  ⟨(default_exists_count_unsupported "OrderRepository" []).1,
   (default_exists_count_unsupported "OrderRepository" []).2.2.1 true⟩

/-- C8: `__init__` given a `sessionmaker` calls it exactly once (the fresh
session counter advances by exactly one) and binds `self._session` to that
single fresh session; given a live session it binds `self._session` to
exactly that session and creates none (the counter does not move).  `Repo`
has a single immutable session field, so every later operation of the
instance runs on that same session. -/
theorem init_single_session_for_lifetime (fresh i : Nat) :
    (SQLAlchemyRepository.init .pool fresh).2 = fresh + 1 ∧
    (SQLAlchemyRepository.init .pool fresh).1.sessionId = fresh ∧
    (SQLAlchemyRepository.init (.session i) fresh).2 = fresh ∧
    (SQLAlchemyRepository.init (.session i) fresh).1.sessionId = i :=
  ⟨rfl, rfl, rfl, rfl⟩

/-- C9: invoking the constructed bulk-save proxy on a session appends exactly
one batch write to that session's log, carrying exactly the captured
instances and flags; calling the constructor with only `instances` captures
the declared defaults `return_defaults=False, update_changed_only=True,
preserve_order=True`. -/
theorem bulk_proxy_single_deferred_write {α : Type} (instances : List α)
    (rd uco po : Bool) (session : SyncSession α) :
    (make_proxy_bulk_save_func instances rd uco po session).log =
      session.log ++ [⟨instances, rd, uco, po⟩] ∧
    (make_proxy_bulk_save_func instances rd uco po session).log.length =
      session.log.length + 1 ∧
    make_proxy_bulk_save_func_defaults instances session =
      make_proxy_bulk_save_func instances false true true session :=
  ⟨rfl, by simp [make_proxy_bulk_save_func], rfl⟩

/-- C2: a unit-of-work `pipeline` scope is atomic — for every operation
sequence, an error raised partway leaves the persisted state exactly as it
was before the scope and propagates the error, while normal completion
persists every write; instantiated on the delete-order handler's two deletes:
with a connection that dies after the first delete, neither delete is
persisted and the error propagates, and with a healthy connection both
deletes are persisted. -/
theorem uow_pipeline_atomic {σ : Type} (ops : List (σ → Except DBErr σ))
    (committed : σ) :
    (∀ e, runOps ops committed = .error e →
      pipeline ops committed = (committed, some e)) ∧
    (∀ s, runOps ops committed = .ok s →
      pipeline ops committed = (s, none)) ∧
    (∀ order_id : Nat, ∀ db : OrderDB,
      (pipeline (deleteOrderHandlerOps order_id) ⟨db, 1⟩).1.db = db ∧
      (pipeline (deleteOrderHandlerOps order_id) ⟨db, 1⟩).2 =
        some .connectionFailure) ∧
    (∀ order_id : Nat, ∀ db : OrderDB, ∀ b : Nat,
      (pipeline (deleteOrderHandlerOps order_id) ⟨db, b + 2⟩).1.db =
        ⟨(SQLAlchemyRepository.delete [fun o => o.id == order_id]
            db.orders).2,
         (SQLAlchemyRepository.delete [fun i => i.order_id == order_id]
            db.order_items).2⟩ ∧
      (pipeline (deleteOrderHandlerOps order_id) ⟨db, b + 2⟩).2 = none) := by
  refine ⟨?_, ?_, ?_, ?_⟩
  · intro e h
    simp [pipeline, h]
  · intro s h
    simp [pipeline, h]
  · intro order_id db
    exact ⟨rfl, rfl⟩
  · intro order_id db b
    exact ⟨rfl, rfl⟩

/-- Witness for C2: a concrete one-row database whose order delete succeeds
inside the scope but whose order-item delete hits the dead connection rolls
back to the initial state, and the same scope with a healthy connection
persists both deletes. -/
theorem uow_pipeline_atomic_witness :
    (pipeline (deleteOrderHandlerOps 1)
      ⟨⟨[⟨1, 0, 10, 1⟩], [⟨1, 1, 2, 3⟩]⟩, 1⟩).1.db =
      ⟨[⟨1, 0, 10, 1⟩], [⟨1, 1, 2, 3⟩]⟩ ∧
    (pipeline (deleteOrderHandlerOps 1)
      ⟨⟨[⟨1, 0, 10, 1⟩], [⟨1, 1, 2, 3⟩]⟩, 2⟩).1.db = ⟨[], []⟩ ∧
    pipeline ([] : List (Nat → Except DBErr Nat)) 0 = (0, none) :=
  ⟨((uow_pipeline_atomic (deleteOrderHandlerOps 1)
      (⟨⟨[⟨1, 0, 10, 1⟩], [⟨1, 1, 2, 3⟩]⟩, 1⟩ : HandlerState)).2.2.1 1
      ⟨[⟨1, 0, 10, 1⟩], [⟨1, 1, 2, 3⟩]⟩).1,
   ((uow_pipeline_atomic (deleteOrderHandlerOps 1)
      (⟨⟨[⟨1, 0, 10, 1⟩], [⟨1, 1, 2, 3⟩]⟩, 2⟩ : HandlerState)).2.2.2 1
      ⟨[⟨1, 0, 10, 1⟩], [⟨1, 1, 2, 3⟩]⟩ 0).1,
   (uow_pipeline_atomic ([] : List (Nat → Except DBErr Nat)) 0).2.1 0 rfl⟩

/-- Lemma: `add` on `order_items` preserves distinctness of the `order_id` column:
a conflicting insert is dropped, a non-conflicting one appends an `order_id`
not yet present. -/
theorem orderItems_add_nodup (order_id product_id quantity nextId : Nat)
    {st : List OrderItemRow}
    (h : (st.map (fun r => r.order_id)).Nodup) :
    ((orderItems_add order_id product_id quantity st nextId).1.map
      (fun r => r.order_id)).Nodup := by
  unfold orderItems_add
  by_cases hc : st.any (fun r => r.order_id == order_id) = true
  · simp only [hc, if_true]
    exact h
  · rw [Bool.not_eq_true] at hc
    have hnotin : order_id ∉ st.map (fun r => r.order_id) := by
      intro hmem
      rcases List.mem_map.mp hmem with ⟨r, hr, hid⟩
      have : st.any (fun r => r.order_id == order_id) = true :=
        List.any_eq_true.mpr ⟨r, hr, by simp [hid]⟩
      rw [this] at hc
      exact Bool.noConfusion hc
    simp [hc, List.nodup_append, h, hnotin]

/-- In every reachable `order_items` state the `order_id` column values are
pairwise distinct. -/
theorem reachableItems_nodup {st : List OrderItemRow}
    (h : ReachableItems st) : (st.map (fun r => r.order_id)).Nodup := by
  induction h with
  | empty => simp
  | add order_id product_id quantity nextId _ ih =>
    exact orderItems_add_nodup order_id product_id quantity nextId ih
  | del clauses _ ih =>
    exact List.Nodup.sublist ((List.filter_sublist _).map _) ih
  | upd clauses setVals _ ih =>
    unfold orderItems_update
    split
    · assumption
    · exact ih

/-- C10: in every `order_items` state reachable through the repository layer
the `order_id` values are pairwise distinct, so each order is referenced by
at most one order-item row; and an `add` whose `order_id` is already present
is silently dropped by the `ON CONFLICT DO NOTHING` policy, returning the
table (and identity counter) unchanged, so no order ever acquires a second
item. -/
theorem order_items_at_most_one_per_order {st : List OrderItemRow}
    (h : ReachableItems st) :
    (st.map (fun r => r.order_id)).Nodup ∧
    (∀ oid : Nat,
      (st.filter (fun r => r.order_id == oid)).length ≤ 1) ∧
    (∀ order_id product_id quantity nextId : Nat,
      st.any (fun r => r.order_id == order_id) = true →
      orderItems_add order_id product_id quantity st nextId =
        (st, nextId)) := by
  refine ⟨reachableItems_nodup h, ?_, ?_⟩
  · intro oid
    have hcount := List.nodup_iff_count_le_one.mp (reachableItems_nodup h) oid
    calc (st.filter (fun r => r.order_id == oid)).length
        = List.countP (fun r => r.order_id == oid) st :=
          (List.countP_eq_length_filter (fun r => r.order_id == oid) st).symm
      _ = List.countP (fun x => x == oid)
            (st.map (fun r => r.order_id)) :=
          (List.countP_map (fun x => x == oid)
            (fun r : OrderItemRow => r.order_id) st).symm
      _ = List.count oid (st.map (fun r => r.order_id)) := rfl
      _ ≤ 1 := hcount
  · intro order_id product_id quantity nextId hc
    simp [orderItems_add, hc]

/-- Witness for C10 at the reachable one-item table produced by a first
`add`: its `order_id` column is duplicate-free and a second `add` for the
same order changes nothing. -/
theorem order_items_at_most_one_witness :
    (([⟨1, 5, 7, 2⟩] : List OrderItemRow).map
      (fun r => r.order_id)).Nodup ∧
    (∀ oid : Nat,
      (([⟨1, 5, 7, 2⟩] : List OrderItemRow).filter
        (fun r => r.order_id == oid)).length ≤ 1) ∧
    (∀ order_id product_id quantity nextId : Nat,
      ([⟨1, 5, 7, 2⟩] : List OrderItemRow).any
        (fun r => r.order_id == order_id) = true →
      orderItems_add order_id product_id quantity [⟨1, 5, 7, 2⟩] nextId =
        ([⟨1, 5, 7, 2⟩], nextId)) :=
  order_items_at_most_one_per_order
    (ReachableItems.add 5 7 2 1 ReachableItems.empty)

end CleanArch
